import Mathlib

/-!
Verification of the session-token and account subsystem of the
TDD-Nodejs user-account backend.

The definitions below are shallow embeddings of the JavaScript source:

* `createToken`, `verify`, `deleteToken`, `sweep`, `clearTokens` embed
  the token service (`src/service/token.js`); the periodic
  `scheduleCleanup` timer's body is embedded as the single-run `sweep`.
* `saveUser`, `validatePasswordResetToken`, `updatePassword`,
  `putUserPassword`, `deleteUser`, `getUsers` embed the user service
  (`src/service/user.js`) and the password route of `src/router/user.js`.
* `basicAuthentication` embeds `src/middleware/basicAuthentication.js`.

Persistent stores are lists of rows; `Date.now()` is an explicit `Int`
millisecond parameter; the bcrypt hash and compare primitives and the
random token generator are explicit functional parameters, as they are
external black boxes to the application code.
-/

namespace TDD

/-- A row of the session-token table.
Modelled from the spec: the model file `src/model/token.js` is not in the
snapshot; its columns are the ones the token service reads and writes and
the spec's persisted shape `session_tokens(token unique, user_id fk
cascade-delete, last_used_at timestamp)`. -/
structure SessionToken where
  token : String
  userId : Nat
  lastUsedAt : Int
deriving Repr, DecidableEq

/-- The session-token table. -/
abbrev TokenStore := List SessionToken

/-- `const ONE_WEEK_AGO_IN_MILLIS = 7 * 24 * 60 * 60 * 1000` from
`src/service/token.js`. -/
def ONE_WEEK_AGO_IN_MILLIS : Int := 7 * 24 * 60 * 60 * 1000

/-- The principal returned by a successful `verify`: `{ id: userId }`. -/
structure Principal where
  id : Nat
deriving Repr, DecidableEq

/-- The single failure `verify` can surface.  In the JavaScript source the
lookup miss (absent or stale token) makes the subsequent property access on
the `null` row throw; there is exactly one failure path and callers
(`tokenAuthentication`) treat every thrown error as an invalid token, so the
failure is modelled by the spec's taxonomy name `InvalidToken`. -/
inductive TokenError
  | InvalidToken
deriving Repr, DecidableEq

/-- `createToken` from `src/service/token.js`: persists a new row with
`lastUsedAt = new Date()` and returns the generated random string `tok`
(the generator is external; its output is the explicit argument). -/
def createToken (userId : Nat) (tok : String) (now : Int) (store : TokenStore) :
    TokenStore × String :=
  (store ++ [{ token := tok, userId := userId, lastUsedAt := now }], tok)

/-- The row filter of `verify`'s lookup:
`{ token: token, lastUsedAt: { [Sequelize.Op.gt]: oneWeekAgo } }`. -/
def verifyWhere (tok : String) (oneWeekAgo : Int) (r : SessionToken) : Bool :=
  r.token == tok && oneWeekAgo < r.lastUsedAt

/-- `verify` from `src/service/token.js`: finds a row by exact token value
with `lastUsedAt` strictly inside the 7-day window, bumps its `lastUsedAt`
to `now` (the row is saved by identity, i.e. the found row is replaced),
and returns `{ id: userId }`.  When the lookup misses the function fails
without touching the store. -/
def verify (tok : String) (now : Int) (store : TokenStore) :
    Except TokenError (Principal × TokenStore) :=
  let oneWeekAgo := now - ONE_WEEK_AGO_IN_MILLIS
  match store.find? (verifyWhere tok oneWeekAgo) with
  | none => .error .InvalidToken
  | some r =>
      .ok ({ id := r.userId },
        store.map fun s => if s = r then { s with lastUsedAt := now } else s)

/-- `deleteToken` from `src/service/token.js`:
`Token.destroy({ where: { token } })`. -/
def deleteToken (tok : String) (store : TokenStore) : TokenStore :=
  store.filter fun r => !(r.token == tok)

/-- One run of the interval body of `scheduleCleanup` from
`src/service/token.js`:
`Token.destroy({ where: { lastUsedAt: { [Sequelize.Op.lt]: oneWeekAgo } } })`. -/
def sweep (now : Int) (store : TokenStore) : TokenStore :=
  let oneWeekAgo := now - ONE_WEEK_AGO_IN_MILLIS
  store.filter fun r => !(r.lastUsedAt < oneWeekAgo)

/-- `clearTokens` from `src/service/token.js`:
`Token.destroy({ where: { userId } })`. -/
def clearTokens (userId : Nat) (store : TokenStore) : TokenStore :=
  store.filter fun r => !(r.userId == userId)

/-- A row of the user table, after `src/model/user.js`: `inactive` defaults
to `true`, the three token/image columns are nullable. -/
structure User where
  id : Nat
  username : String
  email : String
  password : String
  inactive : Bool
  activationToken : Option String
  passwordResetToken : Option String
  profileImage : Option String
deriving Repr, DecidableEq

/-- The user table. -/
abbrev UserStore := List User

/-- Errors of the account service and gateway, after the classes in
`src/errors`: `ForbiddenException` and `EmailException`. -/
inductive AppError
  | Forbidden
  | EmailDeliveryFailed
deriving Repr, DecidableEq

/-- `saveUser` from `src/service/user.js`: hashes the password, creates the
user (with its activation token, `inactive` defaulting to `true`) inside a
transaction, then sends the activation email; on delivery failure the
transaction is rolled back — the visible user table stays as before — and
an `EmailException` is thrown.  `emailOk` is the outcome of the external
`EmailService.sendActivationToken` call; `hash` is the external
`bcrypt.hash`; `activationToken` is the externally generated random string;
`newId` is the id the store assigns.  Returns the error, if any, and the
visible (committed) user table. -/
def saveUser (hash : String → String) (activationToken : String)
    (username email password : String) (newId : Nat) (emailOk : Bool)
    (users : UserStore) : Option AppError × UserStore :=
  let user : User :=
    { id := newId, username := username, email := email,
      password := hash password, inactive := true,
      activationToken := some activationToken,
      passwordResetToken := none, profileImage := none }
  let pending := users ++ [user]
  if emailOk then (none, pending) else (some .EmailDeliveryFailed, users)

/-- `validatePasswordResetToken` from `src/service/user.js`: finds the user
holding the reset token and throws `ForbiddenException` when there is
none. -/
def validatePasswordResetToken (token : String) (users : UserStore) :
    Except AppError User :=
  match users.find? (fun u => u.passwordResetToken == some token) with
  | none => .error .Forbidden
  | some u => .ok u

/-- `updatePassword` from `src/service/user.js`: looks the user up by reset
token, stores the bcrypt hash of the new password, clears the reset token,
saves (an update of that user's row, keyed by id) and clears all of the
user's session tokens.  The service has no null check of its own — the
router has already validated the token — so a missing user is the `none`
case (in JavaScript, the property write on `null` throws). -/
def updatePassword (hash : String → String) (passwordResetToken password : String)
    (users : UserStore) (tokens : TokenStore) :
    Option (UserStore × TokenStore) :=
  match users.find? (fun u => u.passwordResetToken == some passwordResetToken) with
  | none => none
  | some u =>
      let updated := { u with password := hash password, passwordResetToken := none }
      some (users.map fun v => if v.id = u.id then updated else v,
            clearTokens u.id tokens)

/-- The `PUT /api/1.0/user/password` route of `src/router/user.js`, its
express-validator password-format step omitted (field validation is outside
the embedded core): `validatePasswordResetToken` first — `Forbidden` when
no user holds the token — then `updatePassword` (whose lookup, using the
same predicate, necessarily succeeds; its impossible `none` case is mapped
to the validation failure). -/
def putUserPassword (hash : String → String) (passwordResetToken password : String)
    (users : UserStore) (tokens : TokenStore) :
    Except AppError (UserStore × TokenStore) :=
  match validatePasswordResetToken passwordResetToken users with
  | .error e => .error e
  | .ok _ =>
      match updatePassword hash passwordResetToken password users tokens with
      | none => .error .Forbidden
      | some st => .ok st

/-- `deleteUser` from `src/service/user.js` together with the
cascade-delete declared in `src/model/user.js`
(`User.hasMany(Token, { onDelete: 'cascade', foreignKey: 'userId' })`):
destroying the user row deletes every session token whose `userId`
references it. -/
def deleteUser (id : Nat) (users : UserStore) (tokens : TokenStore) :
    UserStore × TokenStore :=
  (users.filter fun u => !(u.id == id),
   tokens.filter fun r => !(r.userId == id))

/-- Outcome of an authentication middleware: pass the request on, with or
without an attached principal, or fail it with an error. -/
inductive AuthOutcome
  | proceed (authenticatedUser : Option User)
  | failed (e : AppError)
deriving Repr, DecidableEq

/-- `basicAuthentication` from `src/middleware/basicAuthentication.js`.
`cred` is the decoded `email:password` pair of the Authorization header
(`none` when no header was supplied); `compare` is the external
`bcrypt.compare`.  No user with the email fails the request with
`ForbiddenException`; an inactive user is skipped (no comparison, nothing
attached, no error); an active user gets the principal attached exactly
when the password matches. -/
def basicAuthentication (compare : String → String → Bool)
    (cred : Option (String × String)) (users : UserStore) : AuthOutcome :=
  match cred with
  | none => .proceed none
  | some (email, password) =>
      match users.find? (fun u => u.email == email) with
      | none => .failed .Forbidden
      | some user =>
          if !user.inactive then
            if compare password user.password then .proceed (some user)
            else .proceed none
          else .proceed none

/-- The row shape returned by the user listing
(`attributes: ['id', 'username', 'email', 'profileImage']`). -/
structure UserListItem where
  id : Nat
  username : String
  email : String
  profileImage : Option String
deriving Repr, DecidableEq

/-- Projection of a user row to the listing attributes. -/
def toListItem (u : User) : UserListItem :=
  { id := u.id, username := u.username, email := u.email,
    profileImage := u.profileImage }

/-- The page object `getUsers` returns. -/
structure UserPage where
  content : List UserListItem
  page : Nat
  size : Nat
  totalPages : Nat
deriving Repr, DecidableEq

/-- The row filter of `getUsers`:
`{ inactive: false, id: { [Sequelize.Op.not]: authenticatedUser ? authenticatedUser.id : 0 } }`. -/
def getUsersWhere (authenticatedUser : Option Principal) (u : User) : Bool :=
  u.inactive == false &&
    !(u.id == match authenticatedUser with | some a => a.id | none => 0)

/-- `getUsers` from `src/service/user.js`: `findAndCountAll` over the
filter above with `offset = (page - 1) * pageSize` and `limit = pageSize`,
projected to the listing attributes; `totalPages` is
`Math.ceil(count / pageSize)` (the router's pagination middleware
guarantees `1 ≤ pageSize`). -/
def getUsers (page pageSize : Nat) (authenticatedUser : Option Principal)
    (users : UserStore) : UserPage :=
  let filtered := users.filter (getUsersWhere authenticatedUser)
  let rows := (filtered.drop ((page - 1) * pageSize)).take pageSize
  { content := rows.map toListItem, page := page, size := pageSize,
    totalPages := (filtered.length + pageSize - 1) / pageSize }

/-! ## Helper lemmas -/

lemma find?_verifyWhere_eq_none {tok : String} {now : Int} {store : TokenStore}
    (h : ∀ r ∈ store, r.token = tok → ONE_WEEK_AGO_IN_MILLIS ≤ now - r.lastUsedAt) :
    store.find? (verifyWhere tok (now - ONE_WEEK_AGO_IN_MILLIS)) = none := by
  rw [List.find?_eq_none]
  intro r hr
  simp only [verifyWhere, Bool.and_eq_true, beq_iff_eq, decide_eq_true_eq, not_and]
  intro htok
  have := h r hr htok
  omega

/-- `verify` on a store whose only row for `tok` is a single appended row:
success case. -/
lemma verify_append_fresh {tok : String} {userId : Nat} {t now : Int} {store : TokenStore}
    (hfresh : ∀ r ∈ store, r.token ≠ tok)
    (h : now - t < ONE_WEEK_AGO_IN_MILLIS) :
    verify tok now (store ++ [{ token := tok, userId := userId, lastUsedAt := t }]) =
      .ok ({ id := userId },
        store ++ [{ token := tok, userId := userId, lastUsedAt := now }]) := by
  have hnone : store.find? (verifyWhere tok (now - ONE_WEEK_AGO_IN_MILLIS)) = none := by
    rw [List.find?_eq_none]
    intro r hr
    simp only [verifyWhere, Bool.and_eq_true, beq_iff_eq, decide_eq_true_eq, not_and]
    intro htok
    exact absurd htok (hfresh r hr)
  have hrow : verifyWhere tok (now - ONE_WEEK_AGO_IN_MILLIS)
      { token := tok, userId := userId, lastUsedAt := t } = true := by
    simp only [verifyWhere, Bool.and_eq_true, beq_iff_eq, decide_eq_true_eq]
    exact ⟨trivial, by omega⟩
  have hmap : store.map (fun s =>
      if s = { token := tok, userId := userId, lastUsedAt := t } then
        { s with lastUsedAt := now } else s) = store := by
    have h1 : ∀ s ∈ store,
        (if s = { token := tok, userId := userId, lastUsedAt := t } then
          { s with lastUsedAt := now } else s) = id s := by
      intro s hs
      have hne : s ≠ { token := tok, userId := userId, lastUsedAt := t } := by
        intro he
        exact hfresh s hs (by rw [he])
      simp [hne]
    rw [List.map_congr_left h1, List.map_id]
  simp only [verify, List.find?_append, hnone, Option.none_or,
    List.find?_cons_of_pos _ hrow, List.map_append, List.map_cons, List.map_nil,
    if_true, hmap]

/-- `verify` on a store whose rows either have a different token value or a
`lastUsedAt` at least a week old fails. -/
lemma verify_miss {tok : String} {now : Int} {store : TokenStore}
    (h : ∀ r ∈ store, r.token = tok → ONE_WEEK_AGO_IN_MILLIS ≤ now - r.lastUsedAt) :
    verify tok now store = .error .InvalidToken := by
  simp only [verify, find?_verifyWhere_eq_none h]

/-- Rows surviving `clearTokens` belong to other users and were already
stored. -/
lemma mem_clearTokens {uid : Nat} {store : TokenStore} {r : SessionToken}
    (hr : r ∈ clearTokens uid store) : r.userId ≠ uid ∧ r ∈ store := by
  simp only [clearTokens, List.mem_filter, Bool.not_eq_true',
    beq_eq_false_iff_ne, ne_eq] at hr
  exact ⟨hr.2, hr.1⟩

/-! ## The claims -/

/-- C1: for every token value `tok` that is either not present in the token
store or whose `lastUsedAt` is at least 7 days old at call time, `verify`
fails with `InvalidToken` — the same, single error for absent and for stale
tokens — and the token store is not modified (the error outcome carries no
store update; the source throws before any write). -/
theorem verify_invalidToken_of_absent_or_stale (tok : String) (now : Int)
    (store : TokenStore)
    (h : ∀ r ∈ store, r.token = tok → ONE_WEEK_AGO_IN_MILLIS ≤ now - r.lastUsedAt) :
    verify tok now store = .error .InvalidToken :=
  verify_miss h

/-- Witness for C1: a store holding one exactly-7-days-stale row for the
requested token and one fresh row for a different token. -/
theorem verify_invalidToken_of_absent_or_stale_witness :
    (∀ r ∈ ([⟨"t", 5, 0⟩, ⟨"other", 6, 604800000⟩] : TokenStore),
        r.token = "t" → ONE_WEEK_AGO_IN_MILLIS ≤ 604800000 - r.lastUsedAt)
    ∧ verify "t" 604800000 [⟨"t", 5, 0⟩, ⟨"other", 6, 604800000⟩] =
        .error .InvalidToken :=
  ⟨by decide, verify_invalidToken_of_absent_or_stale "t" 604800000
    [⟨"t", 5, 0⟩, ⟨"other", 6, 604800000⟩] (by decide)⟩

/-- C2: a token issued by `createToken` verifies successfully — yielding a
principal with the issuing user's id — at any time less than 7 days after
issuance; the successful verification bumps `lastUsedAt` to the time of
use, so a further verification less than 7 days after the previous use
succeeds again (sliding window); and a token unused for 7 days plus 1
millisecond fails `verify`.  The issued token value is fresh, as the store
enforces uniqueness of the randomly generated value. -/
theorem issue_verify_sliding_window (userId : Nat) (tok : String)
    (store : TokenStore) (t0 t1 t2 : Int)
    (hfresh : ∀ r ∈ store, r.token ≠ tok)
    (h1 : t1 - t0 < ONE_WEEK_AGO_IN_MILLIS)
    (h2 : t2 - t1 < ONE_WEEK_AGO_IN_MILLIS) :
    verify tok t1 (createToken userId tok t0 store).1 =
      .ok ({ id := userId },
        store ++ [{ token := tok, userId := userId, lastUsedAt := t1 }])
    ∧ verify tok t2
        (store ++ [{ token := tok, userId := userId, lastUsedAt := t1 }]) =
      .ok ({ id := userId },
        store ++ [{ token := tok, userId := userId, lastUsedAt := t2 }])
    ∧ verify tok (t1 + ONE_WEEK_AGO_IN_MILLIS + 1)
        (store ++ [{ token := tok, userId := userId, lastUsedAt := t1 }]) =
      .error .InvalidToken := by
  refine ⟨verify_append_fresh hfresh (by omega),
    verify_append_fresh hfresh (by omega), ?_⟩
  apply verify_miss
  intro r hr
  rcases List.mem_append.1 hr with hr | hr
  · exact fun htok => absurd htok (hfresh r hr)
  · intro _
    simp only [List.mem_singleton] at hr
    subst hr
    dsimp only
    omega

/-- Witness for C2: issue at time 0, verify at 1, re-verify at 2, stale at
`1 + 7 days + 1 ms`, over a store already holding a row of another token. -/
theorem issue_verify_sliding_window_witness :
    (∀ r ∈ ([⟨"other", 9, 0⟩] : TokenStore), r.token ≠ "t")
    ∧ ((1 : Int) - 0 < ONE_WEEK_AGO_IN_MILLIS)
    ∧ ((2 : Int) - 1 < ONE_WEEK_AGO_IN_MILLIS)
    ∧ (verify "t" 1 (createToken 7 "t" 0 [⟨"other", 9, 0⟩]).1 =
        .ok ({ id := 7 }, [⟨"other", 9, 0⟩, ⟨"t", 7, 1⟩])
      ∧ verify "t" 2 [⟨"other", 9, 0⟩, ⟨"t", 7, 1⟩] =
        .ok ({ id := 7 }, [⟨"other", 9, 0⟩, ⟨"t", 7, 2⟩])
      ∧ verify "t" (1 + ONE_WEEK_AGO_IN_MILLIS + 1) [⟨"other", 9, 0⟩, ⟨"t", 7, 1⟩] =
        .error .InvalidToken) :=
  ⟨by decide, by decide, by decide,
    issue_verify_sliding_window 7 "t" [⟨"other", 9, 0⟩] 0 1 2
      (by decide) (by decide) (by decide)⟩

/-- C3: one run of the cleanup body deletes exactly the rows whose
`lastUsedAt` is older than 7 days at sweep time (strictly more than 7 days
elapsed), keeps every fresher row, across all users, and modifies or
reorders nothing (the result is a sublist of the store). -/
theorem sweep_removes_exactly_stale (now : Int) (store : TokenStore) :
    (∀ r ∈ store,
      r ∈ sweep now store ↔ now - r.lastUsedAt ≤ ONE_WEEK_AGO_IN_MILLIS)
    ∧ List.Sublist (sweep now store) store := by
  refine ⟨fun r hr => ?_, List.filter_sublist store⟩
  simp only [sweep, List.mem_filter, hr, true_and, Bool.not_eq_true',
    decide_eq_false_iff_not, not_lt]
  omega

/-- Witness for C3: at time `7 days + 1 ms`, the row last used at time 1 is
kept by the sweep (the theorem applied to it, both hypotheses discharged by
computation). -/
theorem sweep_removes_exactly_stale_witness :
    (⟨"b", 2, 1⟩ : SessionToken) ∈
      sweep (ONE_WEEK_AGO_IN_MILLIS + 1) [⟨"a", 1, 0⟩, ⟨"b", 2, 1⟩] :=
  ((sweep_removes_exactly_stale (ONE_WEEK_AGO_IN_MILLIS + 1)
      [⟨"a", 1, 0⟩, ⟨"b", 2, 1⟩]).1 ⟨"b", 2, 1⟩ (by decide)).2 (by decide)

/-- C4: `deleteToken` removes every row carrying the given token value and
nothing else; on a store without the value it is the identity (revoking an
unknown or already-revoked token is a silent no-op — the operation is total
and never fails); afterwards `verify` of that value fails with
`InvalidToken`, and a second revoke leaves the store unchanged. -/
theorem revoke_invalidates_and_is_idempotent (tok : String) (now : Int)
    (store : TokenStore) :
    (∀ r ∈ deleteToken tok store, r.token ≠ tok ∧ r ∈ store)
    ∧ (∀ r ∈ store, r.token ≠ tok → r ∈ deleteToken tok store)
    ∧ ((∀ r ∈ store, r.token ≠ tok) → deleteToken tok store = store)
    ∧ verify tok now (deleteToken tok store) = .error .InvalidToken
    ∧ deleteToken tok (deleteToken tok store) = deleteToken tok store := by
  have hmem : ∀ r ∈ deleteToken tok store, r.token ≠ tok ∧ r ∈ store := by
    intro r hr
    simp only [deleteToken, List.mem_filter, Bool.not_eq_true',
      beq_eq_false_iff_ne, ne_eq] at hr
    exact ⟨hr.2, hr.1⟩
  refine ⟨hmem, ?_, ?_, ?_, ?_⟩
  · intro r hr hne
    simp only [deleteToken, List.mem_filter, hr, true_and,
      Bool.not_eq_true', beq_eq_false_iff_ne, ne_eq]
    exact hne
  · intro h
    apply List.filter_eq_self.2
    intro r hr
    simp only [Bool.not_eq_true', beq_eq_false_iff_ne, ne_eq]
    exact h r hr
  · apply verify_miss
    intro r hr htok
    exact absurd htok (hmem r hr).1
  · apply List.filter_eq_self.2
    intro r hr
    simp only [Bool.not_eq_true', beq_eq_false_iff_ne, ne_eq]
    exact (hmem r hr).1

/-- Witness for C4: revoking `"t"` from a two-row store keeps the other
row, drops the revoked one, makes `verify "t"` fail, and is idempotent. -/
theorem revoke_invalidates_and_is_idempotent_witness :
    ((⟨"u", 2, 5⟩ : SessionToken).token ≠ "t"
        ∧ (⟨"u", 2, 5⟩ : SessionToken) ∈ [⟨"t", 1, 5⟩, ⟨"u", 2, 5⟩])
    ∧ verify "t" 6 (deleteToken "t" [⟨"t", 1, 5⟩, ⟨"u", 2, 5⟩]) =
        .error .InvalidToken
    ∧ deleteToken "t" (deleteToken "t" [⟨"t", 1, 5⟩, ⟨"u", 2, 5⟩]) =
        deleteToken "t" [⟨"t", 1, 5⟩, ⟨"u", 2, 5⟩] :=
  ⟨(revoke_invalidates_and_is_idempotent "t" 6 [⟨"t", 1, 5⟩, ⟨"u", 2, 5⟩]).1
      ⟨"u", 2, 5⟩ (by decide),
   (revoke_invalidates_and_is_idempotent "t" 6
      [⟨"t", 1, 5⟩, ⟨"u", 2, 5⟩]).2.2.2.1,
   (revoke_invalidates_and_is_idempotent "t" 6
      [⟨"t", 1, 5⟩, ⟨"u", 2, 5⟩]).2.2.2.2⟩

/-- C5: `clearTokens` deletes exactly the rows owned by the given user —
every remaining row belongs to someone else and was already there, every
other user's row survives untouched — afterwards `verify` fails on each of
the user's token values, and on a store where the user owns nothing
(including zero tokens overall) it is the identity; the operation is total
and never fails. -/
theorem revokeAll_clears_exactly_owner (uid : Nat) (now : Int)
    (store : TokenStore) :
    (∀ r ∈ clearTokens uid store, r.userId ≠ uid ∧ r ∈ store)
    ∧ (∀ r ∈ store, r.userId ≠ uid → r ∈ clearTokens uid store)
    ∧ (∀ tok, (∀ r ∈ store, r.token = tok → r.userId = uid) →
        verify tok now (clearTokens uid store) = .error .InvalidToken)
    ∧ ((∀ r ∈ store, r.userId ≠ uid) → clearTokens uid store = store) := by
  have hmem : ∀ r ∈ clearTokens uid store, r.userId ≠ uid ∧ r ∈ store := by
    intro r hr
    simp only [clearTokens, List.mem_filter, Bool.not_eq_true',
      beq_eq_false_iff_ne, ne_eq] at hr
    exact ⟨hr.2, hr.1⟩
  refine ⟨hmem, ?_, ?_, ?_⟩
  · intro r hr hne
    simp only [clearTokens, List.mem_filter, hr, true_and,
      Bool.not_eq_true', beq_eq_false_iff_ne, ne_eq]
    exact hne
  · intro tok howned
    apply verify_miss
    intro r hr htok
    have h1 := hmem r hr
    exact absurd (howned r h1.2 htok) h1.1
  · intro h
    apply List.filter_eq_self.2
    intro r hr
    simp only [Bool.not_eq_true', beq_eq_false_iff_ne, ne_eq]
    exact h r hr

/-- Witness for C5: clearing user 1's two tokens from a three-row store
keeps user 2's row and makes both of user 1's token values fail `verify`. -/
theorem revokeAll_clears_exactly_owner_witness :
    ((⟨"c", 2, 5⟩ : SessionToken) ∈
        clearTokens 1 [⟨"a", 1, 5⟩, ⟨"b", 1, 5⟩, ⟨"c", 2, 5⟩])
    ∧ verify "a" 6 (clearTokens 1 [⟨"a", 1, 5⟩, ⟨"b", 1, 5⟩, ⟨"c", 2, 5⟩]) =
        .error .InvalidToken
    ∧ verify "b" 6 (clearTokens 1 [⟨"a", 1, 5⟩, ⟨"b", 1, 5⟩, ⟨"c", 2, 5⟩]) =
        .error .InvalidToken :=
  ⟨(revokeAll_clears_exactly_owner 1 6
      [⟨"a", 1, 5⟩, ⟨"b", 1, 5⟩, ⟨"c", 2, 5⟩]).2.1 ⟨"c", 2, 5⟩
      (by decide) (by decide),
   (revokeAll_clears_exactly_owner 1 6
      [⟨"a", 1, 5⟩, ⟨"b", 1, 5⟩, ⟨"c", 2, 5⟩]).2.2.1 "a" (by decide),
   (revokeAll_clears_exactly_owner 1 6
      [⟨"a", 1, 5⟩, ⟨"b", 1, 5⟩, ⟨"c", 2, 5⟩]).2.2.1 "b" (by decide)⟩

/-- C6: the password-update operation (reset-token validation followed by
the service update, as the route composes them) fails with `Forbidden` when
no user holds the reset token, leaving all state unchanged (the error
outcome carries no store update and the source throws before any write);
when the lookup finds user `u`, the stored password becomes the hash of the
new password, `passwordResetToken` is cleared, only `u`'s row changes, and
all of `u`'s session tokens are cleared, so that `verify` subsequently
fails on every token value owned by `u`. -/
theorem updatePassword_forbidden_or_revokes (hash : String → String)
    (rt pw : String) (users : UserStore) (tokens : TokenStore) :
    ((∀ u ∈ users, u.passwordResetToken ≠ some rt) →
        putUserPassword hash rt pw users tokens = .error .Forbidden)
    ∧ (∀ u, users.find? (fun v => v.passwordResetToken == some rt) = some u →
        putUserPassword hash rt pw users tokens =
          .ok (users.map fun v => if v.id = u.id then
                { u with password := hash pw, passwordResetToken := none }
              else v,
            clearTokens u.id tokens)
        ∧ ∀ tok now, (∀ r ∈ tokens, r.token = tok → r.userId = u.id) →
            verify tok now (clearTokens u.id tokens) = .error .InvalidToken) := by
  constructor
  · intro h
    have hnone : users.find? (fun v => v.passwordResetToken == some rt) = none := by
      rw [List.find?_eq_none]
      intro u hu
      simp only [beq_iff_eq]
      exact h u hu
    simp only [putUserPassword, validatePasswordResetToken, hnone]
  · intro u hu
    constructor
    · simp only [putUserPassword, validatePasswordResetToken, updatePassword, hu]
    · intro tok now howned
      apply verify_miss
      intro r hr htok
      have h1 := mem_clearTokens hr
      exact absurd (howned r h1.2 htok) h1.1

/-- Witness for C6: a store with one user holding reset token `"rt"` and
one session token; the update hashes the password, clears the reset token
and empties the user's token store. -/
theorem updatePassword_forbidden_or_revokes_witness :
    putUserPassword (fun s => String.append s "#") "rt" "pw"
        [{ id := 1, username := "u1", email := "e", password := "old",
           inactive := false, activationToken := none,
           passwordResetToken := some "rt", profileImage := none }]
        [⟨"s", 1, 5⟩] =
      .ok ([{ id := 1, username := "u1", email := "e", password := "pw#",
              inactive := false, activationToken := none,
              passwordResetToken := none, profileImage := none }], []) := by
  rw [((updatePassword_forbidden_or_revokes (fun s => String.append s "#")
      "rt" "pw"
      [{ id := 1, username := "u1", email := "e", password := "old",
         inactive := false, activationToken := none,
         passwordResetToken := some "rt", profileImage := none }]
      [⟨"s", 1, 5⟩]).2
      { id := 1, username := "u1", email := "e", password := "old",
        inactive := false, activationToken := none,
        passwordResetToken := some "rt", profileImage := none }
      (by rfl)).1]
  rfl

/-- C7: after `deleteUser` — which, through the cascade declared on
`User.hasMany(Token)`, deletes the session-token rows referencing the
user — no session token owned by the deleted user remains, the user's row
is gone, and every other user's tokens survive. -/
theorem deleteAccount_no_orphan_tokens (uid : Nat) (users : UserStore)
    (tokens : TokenStore) :
    (∀ u ∈ (deleteUser uid users tokens).1, u.id ≠ uid)
    ∧ (∀ r ∈ (deleteUser uid users tokens).2, r.userId ≠ uid ∧ r ∈ tokens)
    ∧ (∀ r ∈ tokens, r.userId ≠ uid → r ∈ (deleteUser uid users tokens).2) := by
  refine ⟨fun u hu => ?_, fun r hr => ?_, fun r hr hne => ?_⟩
  · simp only [deleteUser, List.mem_filter, Bool.not_eq_true',
      beq_eq_false_iff_ne, ne_eq] at hu
    exact hu.2
  · simp only [deleteUser, List.mem_filter, Bool.not_eq_true',
      beq_eq_false_iff_ne, ne_eq] at hr
    exact ⟨hr.2, hr.1⟩
  · simp only [deleteUser, List.mem_filter, hr, true_and,
      Bool.not_eq_true', beq_eq_false_iff_ne, ne_eq]
    exact hne

/-- Witness for C7: deleting user 1 with two of their tokens and one of
user 2's: user 2's token survives and, being in the surviving store, is
not owned by user 1. -/
theorem deleteAccount_no_orphan_tokens_witness :
    ((⟨"c", 2, 5⟩ : SessionToken) ∈
        (deleteUser 1 [] [⟨"a", 1, 5⟩, ⟨"b", 1, 5⟩, ⟨"c", 2, 5⟩]).2)
    ∧ (⟨"c", 2, 5⟩ : SessionToken).userId ≠ 1 :=
  ⟨(deleteAccount_no_orphan_tokens 1 []
      [⟨"a", 1, 5⟩, ⟨"b", 1, 5⟩, ⟨"c", 2, 5⟩]).2.2 ⟨"c", 2, 5⟩
      (by decide) (by decide),
   ((deleteAccount_no_orphan_tokens 1 []
      [⟨"a", 1, 5⟩, ⟨"b", 1, 5⟩, ⟨"c", 2, 5⟩]).2.1 ⟨"c", 2, 5⟩
      ((deleteAccount_no_orphan_tokens 1 []
        [⟨"a", 1, 5⟩, ⟨"b", 1, 5⟩, ⟨"c", 2, 5⟩]).2.2 ⟨"c", 2, 5⟩
        (by decide) (by decide))).1⟩

/-- C8: registration is atomic with respect to email delivery.  When the
activation email fails, the caller receives `EmailDeliveryFailed` and the
visible user table is exactly the one from before the call (the
transaction rolled back); when delivery succeeds, the new user is persisted
inactive, with the hashed password and the activation token. -/
theorem register_atomic_create_email (hash : String → String)
    (activationToken username email password : String) (newId : Nat)
    (users : UserStore) :
    saveUser hash activationToken username email password newId false users =
      (some .EmailDeliveryFailed, users)
    ∧ saveUser hash activationToken username email password newId true users =
      (none, users ++
        [{ id := newId, username := username, email := email,
           password := hash password, inactive := true,
           activationToken := some activationToken,
           passwordResetToken := none, profileImage := none }]) :=
  ⟨rfl, rfl⟩

/-- C9 counterexample: an inactive user whose email and password both match
the supplied credential.  The claim says the request fails with
`Forbidden`; the middleware instead passes the request on with no principal
attached and no error — `Forbidden` is raised only when no user has the
email. -/
theorem basicAuth_inactive_proceeds_counterexample :
    basicAuthentication (fun p h => p == h) (some ("a@b.c", "pw"))
        [{ id := 1, username := "u", email := "a@b.c", password := "pw",
           inactive := true, activationToken := none,
           passwordResetToken := none, profileImage := none }] =
      .proceed none
    ∧ AuthOutcome.proceed none ≠ .failed .Forbidden :=
  ⟨rfl, by decide⟩

/-- C9 amended: on the basic-credential path, a missing user for the
supplied email fails the request with `Forbidden`; a user that exists but
is inactive is skipped — no password comparison, nothing attached, no
error; for an active user the password is compared against the stored
hash, the principal is attached on match and nothing is attached (without
error) on mismatch. -/
theorem basicAuth_forbidden_only_when_absent
    (compare : String → String → Bool) (email pw : String)
    (users : UserStore) :
    (users.find? (fun u => u.email == email) = none →
        basicAuthentication compare (some (email, pw)) users =
          .failed .Forbidden)
    ∧ (∀ u, users.find? (fun v => v.email == email) = some u →
        basicAuthentication compare (some (email, pw)) users =
          if u.inactive then .proceed none
          else if compare pw u.password then .proceed (some u)
          else .proceed none) := by
  constructor
  · intro h
    simp only [basicAuthentication, h]
  · intro u hu
    simp only [basicAuthentication, hu]
    by_cases hi : u.inactive
    · simp [hi]
    · by_cases hc : compare pw u.password <;> simp [hi, hc]

/-- Witness for C9's amended theorem: with no user stored, the middleware
fails the request with `Forbidden`. -/
theorem basicAuth_forbidden_only_when_absent_witness :
    basicAuthentication (fun p h => p == h) (some ("a@b.c", "pw")) [] =
      .failed .Forbidden :=
  (basicAuth_forbidden_only_when_absent (fun p h => p == h)
    "a@b.c" "pw" []).1 (by rfl)

/-- C10: every row the paginated listing returns comes from a stored user
whose `inactive` flag is false and, when a caller is authenticated, whose
id differs from the caller's; and with no authenticated caller every
active user appears on some page (their id is nonzero, as the store
assigns ids from 1 — the unauthenticated filter compares against the
sentinel id 0). -/
theorem getUsers_active_and_not_self (page pageSize : Nat)
    (auth : Option Principal) (users : UserStore) :
    (∀ item ∈ (getUsers page pageSize auth users).content,
        ∃ u, u ∈ users ∧ toListItem u = item ∧ u.inactive = false ∧
          ∀ a, auth = some a → u.id ≠ a.id)
    ∧ (auth = none → ∀ u ∈ users, u.inactive = false → u.id ≠ 0 →
        ∃ p, toListItem u ∈ (getUsers p 1 none users).content) := by
  constructor
  · intro item hitem
    simp only [getUsers, List.mem_map] at hitem
    obtain ⟨u, hu, hproj⟩ := hitem
    have h1 : u ∈ users.filter (getUsersWhere auth) :=
      List.drop_subset _ _ (List.take_subset _ _ hu)
    rw [List.mem_filter] at h1
    obtain ⟨h2, h3⟩ := h1
    simp only [getUsersWhere, Bool.and_eq_true, beq_iff_eq,
      Bool.not_eq_true', beq_eq_false_iff_ne, ne_eq] at h3
    refine ⟨u, h2, hproj, h3.1, fun a ha => ?_⟩
    subst ha
    exact h3.2
  · intro ha u hu hact hid
    subst ha
    have hf : u ∈ users.filter (getUsersWhere none) := by
      rw [List.mem_filter]
      refine ⟨hu, ?_⟩
      simp only [getUsersWhere, Bool.and_eq_true, beq_iff_eq,
        Bool.not_eq_true', beq_eq_false_iff_ne, ne_eq]
      exact ⟨hact, hid⟩
    obtain ⟨n, hn, hget⟩ := List.getElem_of_mem hf
    refine ⟨n + 1, ?_⟩
    simp only [getUsers, Nat.add_sub_cancel, Nat.mul_one]
    rw [List.drop_eq_getElem_cons hn, List.take_succ_cons, List.take_zero,
      List.map_cons, List.map_nil, hget]
    exact List.mem_singleton.2 rfl

/-- Witness for C10: one active and one inactive user, no authenticated
caller; the single listed row is shown to come from the active user (the
theorem's first part applied to it), and the active user is shown to
appear on page 1 (the second part). -/
theorem getUsers_active_and_not_self_witness :
    (∃ u, u ∈ [{ id := 1, username := "a", email := "a@x", password := "p",
                 inactive := false, activationToken := none,
                 passwordResetToken := none, profileImage := none },
               { id := 2, username := "b", email := "b@x", password := "p",
                 inactive := true, activationToken := none,
                 passwordResetToken := none, profileImage := none }]
        ∧ toListItem u = ⟨1, "a", "a@x", none⟩ ∧ u.inactive = false
        ∧ ∀ a, (none : Option Principal) = some a → u.id ≠ a.id)
    ∧ ∃ p, toListItem
        { id := 1, username := "a", email := "a@x", password := "p",
          inactive := false, activationToken := none,
          passwordResetToken := none, profileImage := none } ∈
        (getUsers p 1 none
          [{ id := 1, username := "a", email := "a@x", password := "p",
             inactive := false, activationToken := none,
             passwordResetToken := none, profileImage := none },
           { id := 2, username := "b", email := "b@x", password := "p",
             inactive := true, activationToken := none,
             passwordResetToken := none, profileImage := none }]).content :=
  ⟨(getUsers_active_and_not_self 1 10 none
      [{ id := 1, username := "a", email := "a@x", password := "p",
         inactive := false, activationToken := none,
         passwordResetToken := none, profileImage := none },
       { id := 2, username := "b", email := "b@x", password := "p",
         inactive := true, activationToken := none,
         passwordResetToken := none, profileImage := none }]).1
      ⟨1, "a", "a@x", none⟩ (by decide),
   (getUsers_active_and_not_self 1 10 none
      [{ id := 1, username := "a", email := "a@x", password := "p",
         inactive := false, activationToken := none,
         passwordResetToken := none, profileImage := none },
       { id := 2, username := "b", email := "b@x", password := "p",
         inactive := true, activationToken := none,
         passwordResetToken := none, profileImage := none }]).2 rfl
      { id := 1, username := "a", email := "a@x", password := "p",
        inactive := false, activationToken := none,
        passwordResetToken := none, profileImage := none }
      (by decide) (by decide) (by decide)⟩

end TDD
